import Mathlib

/-!
Verification of the session/task orchestration layer of the browser-automation
API server (`browser_use/api/server.py`).

The Python code is shallowly embedded: the four global registry dictionaries
become association lists, each endpoint becomes a pure function from an
environment (modelling the outcomes of the external collaborators: browser
start/stop, agent construction, agent runs, the `OPENAI_API_KEY` variable and
the millisecond clock) and a server state to a result, a new state, a trace of
side effects and - for the task endpoint - a list of scheduled background
jobs.  `HTTPException(status, detail)` is modelled by `PyErr.http`; a plain
Python exception raised by a collaborator by `PyErr.exc`.  The blanket
`except Exception as e: raise HTTPException(500, str(e))` wrapper that closes
every endpoint body is modelled by `wrap500`, with `str(e)` of an
`HTTPException` rendered as `"{status}: {detail}"` as in starlette.
-/

/-- Python dict lookup `d.get(k)` / `k in d` on an association list. -/
def dictLookup {α : Type} (l : List (String × α)) (k : String) : Option α :=
  match l with
  | [] => none
  | (k₁, v) :: rest => if k₁ = k then some v else dictLookup rest k

/-- Python dict assignment `d[k] = v`: replace in place, else append
(insertion order preserved, as for Python dicts). -/
def dictInsert {α : Type} (l : List (String × α)) (k : String) (v : α) :
    List (String × α) :=
  match l with
  | [] => [(k, v)]
  | (k₁, v₁) :: rest =>
      if k₁ = k then (k, v) :: rest else (k₁, v₁) :: dictInsert rest k v

/-- Python `del d[k]` (total: removing an absent key is the identity; the
source only deletes keys it has just looked up). -/
def dictErase {α : Type} (l : List (String × α)) (k : String) :
    List (String × α) :=
  match l with
  | [] => []
  | (k₁, v₁) :: rest =>
      if k₁ = k then dictErase rest k else (k₁, v₁) :: dictErase rest k

/-- The keys of a dict, in iteration order. -/
def dictKeys {α : Type} (l : List (String × α)) : List String :=
  l.map Prod.fst

/-- `BrowserProfile(...)` with exactly the fields `create_session` sets. -/
structure BrowserProfile where
  downloads_path : String
  wait_between_actions : Rat
  keep_alive : Bool
  user_data_dir : String
  headless : Bool
  allowed_domains : List String
deriving Repr, DecidableEq

/-- A `BrowserSession` object: the profile it was constructed with and
whether `start()` has completed. -/
structure BrowserSession where
  browser_profile : BrowserProfile
  started : Bool
deriving Repr, DecidableEq

/-- `Controller()`: constructed with no arguments in the source. -/
structure Controller where
  deriving Repr, DecidableEq

/-- `FileSystem(base_dir=...)`. -/
structure FileSystem where
  base_dir : String
deriving Repr, DecidableEq

/-- Modelled from the spec: the agent handle's queryable history (§6 of the
spec: "history exposes step count, success flag, total duration, visited
URLs, final result, and error list").  The `Agent` class itself is repository
code that is not under `src/`.  `urls` entries may be Python `None`, which the
status endpoint filters out. -/
structure AgentHistory where
  steps : Nat
  is_successful : Option Bool
  total_duration : Rat
  urls : List (Option String)
  final_result : Option String
  errors : List String
deriving Repr, DecidableEq

/-- Modelled from the spec: the agent handle (§6: "run(maxSteps) → history;
close(); liveness flag").  `running` is `Option Bool` because the status
endpoint probes it with `hasattr(agent, 'running')` before reading it
(`none` = attribute absent); likewise `state_history` models the
`hasattr(agent, 'state') and hasattr(agent.state, 'history')` probe. -/
structure Agent where
  task : String
  model : String
  running : Option Bool
  state_history : Option AgentHistory
deriving Repr, DecidableEq

/-- The global `ServerState` with its four registry dictionaries. -/
structure ServerState where
  browser_sessions : List (String × BrowserSession)
  agents : List (String × Agent)
  controllers : List (String × Controller)
  file_systems : List (String × FileSystem)
deriving Repr, DecidableEq

/-- The empty server state (`ServerState.__init__`). -/
def emptyState : ServerState :=
  { browser_sessions := [], agents := [], controllers := [], file_systems := [] }

/-- `CreateSessionRequest`. -/
structure CreateSessionRequest where
  session_id : Option String
  headless : Bool := true
  allowed_domains : List String := []
  wait_between_actions : Rat := 1 / 2
deriving Repr, DecidableEq

/-- `AgentTaskRequest`. -/
structure AgentTaskRequest where
  task : String
  max_steps : Nat := 100
  model : String := "gpt-4o"
  session_id : String := "default"
deriving Repr, DecidableEq

/-- `SessionResponse`. -/
structure SessionResponse where
  session_id : String
  status : String
  message : String
deriving Repr, DecidableEq

/-- `TaskResponse`. -/
structure TaskResponse where
  task_id : String
  status : String
  message : String
  session_id : String
deriving Repr, DecidableEq

/-- The JSON object returned by `GET /agent/task/{task_id}`; the `Option`
fields model keys that are present only when the corresponding
`history_info` entry was added. -/
structure StatusResponse where
  task_id : String
  status : String
  steps_completed : Option Nat
  is_successful : Option (Option Bool)
  total_duration : Option Rat
  urls_visited : Option (List String)
  final_result : Option String
  errors : Option (List String)
deriving Repr, DecidableEq

/-- A raised Python exception: `http` is `fastapi.HTTPException(status,
detail)`, `exc` any other exception (identified by its message). -/
inductive PyErr where
  | http (status : Nat) (detail : String)
  | exc (msg : String)
deriving Repr, DecidableEq

/-- Python `str(e)`: starlette's `HTTPException.__str__` renders
`"{status_code}: {detail}"`; for a plain exception, its message. -/
def pyStr : PyErr → String
  | .http status detail => toString status ++ ": " ++ detail
  | .exc msg => msg

/-- The `except Exception as e: raise HTTPException(status_code=500,
detail=str(e))` wrapper that ends every endpoint body. -/
def wrap500 (e : PyErr) : PyErr :=
  .http 500 (pyStr e)

/-- Observable side effects on the external collaborators. -/
inductive Effect where
  | sessionStart (id : String)
  | sessionStop (id : String)
  | sessionStopFailed (id : String)
  | agentClose (id : String)
  | agentCloseFailed (id : String)
deriving Repr, DecidableEq

/-- Modelled from the spec: the outcome of one agent `run` (external
collaborator, §6): it either completes with a resulting history, or raises. -/
inductive RunOutcome where
  | ok (h : AgentHistory)
  | raises (msg : String)
deriving Repr, DecidableEq

/-- The environment: the clock (`int(time.time() * 1000)`), the
`OPENAI_API_KEY` environment variable, and the outcomes of every call into an
external collaborator (success, or raising an exception). -/
structure Env where
  now : Nat
  apiKey : Option String
  sessionStartOk : Bool
  controllerOk : Bool
  fileSystemOk : Bool
  agentConstructOk : Bool
  agentCloseFails : String → Bool
  sessionStopFails : String → Bool
  runOutcome : String → Nat → RunOutcome

/-- A unit of work handed to `background_tasks.add_task`. -/
structure BackgroundJob where
  task_id : String
  max_steps : Nat
deriving Repr, DecidableEq

/-- The `BrowserProfile(...)` built inside `create_session`. -/
def profileOf (request : CreateSessionRequest) : BrowserProfile :=
  { downloads_path := "~/Downloads/browser-use-api"
    wait_between_actions := request.wait_between_actions
    keep_alive := true
    user_data_dir := "~/.config/browseruse/profiles/api"
    headless := request.headless
    allowed_domains := request.allowed_domains }

/-- The `BrowserSession(browser_profile=profile)` object after a successful
`await session.start()`. -/
def sessionOf (request : CreateSessionRequest) : BrowserSession :=
  { browser_profile := profileOf request, started := true }

/-- `session_id = request.session_id or f"session_{int(time.time() * 1000)}"`
(Python `or` treats the empty string as falsy). -/
def resolveSessionId (env : Env) (request : CreateSessionRequest) : String :=
  match request.session_id with
  | some s => if s = "" then "session_" ++ toString env.now else s
  | none => "session_" ++ toString env.now

/-- `POST /sessions` (`create_session`).  Returns the response or the raised
exception, the new server state and the trace of collaborator effects.
Failure points of the three sub-resource initialisations are taken from the
environment; each carries a fixed message standing for the stringified
underlying exception. -/
def create_session (env : Env) (st : ServerState)
    (request : CreateSessionRequest) :
    Except PyErr SessionResponse × ServerState × List Effect :=
  let session_id := resolveSessionId env request
  if (dictLookup st.browser_sessions session_id).isSome then
    (.error (wrap500 (.http 400 ("Session " ++ session_id ++ " already exists"))),
     st, [])
  else if env.sessionStartOk = false then
    (.error (wrap500 (.exc "browser session start failed")), st, [])
  else
    let st₁ : ServerState :=
      { st with browser_sessions :=
          dictInsert st.browser_sessions session_id (sessionOf request) }
    if env.controllerOk = false then
      (.error (wrap500 (.exc "controller initialization failed")), st₁,
       [Effect.sessionStart session_id])
    else
      let st₂ : ServerState :=
        { st₁ with controllers := dictInsert st₁.controllers session_id {} }
      if env.fileSystemOk = false then
        (.error (wrap500 (.exc "file system initialization failed")), st₂,
         [Effect.sessionStart session_id])
      else
        let st₃ : ServerState :=
          { st₂ with file_systems :=
              dictInsert st₂.file_systems session_id ⟨"~/.browser-use-api"⟩ }
        (.ok { session_id := session_id, status := "created",
               message := "Browser session " ++ session_id ++
                 " created successfully" },
         st₃, [Effect.sessionStart session_id])

/-- The `CreateSessionRequest(...)` the `get_session` helper builds for the
`"default"` session. -/
def defaultRequest : CreateSessionRequest :=
  { session_id := some "default", headless := true, allowed_domains := [],
    wait_between_actions := 1 / 2 }

/-- The `get_session` helper: returns the registered session, lazily creating
the `"default"` one, and raising `HTTPException(404)` (unwrapped - the helper
has no `try`) for any other absent id. -/
def get_session (env : Env) (st : ServerState) (session_id : String) :
    Except PyErr BrowserSession × ServerState × List Effect :=
  match dictLookup st.browser_sessions session_id with
  | some s => (.ok s, st, [])
  | none =>
    if session_id = "default" then
      match create_session env st defaultRequest with
      | (.error e, st₁, eff) => (.error e, st₁, eff)
      | (.ok _, st₁, eff) =>
        match dictLookup st₁.browser_sessions "default" with
        | some s => (.ok s, st₁, eff)
        | none => (.error (.exc "KeyError: default"), st₁, eff)
    else
      (.error (.http 404 ("Session " ++ session_id ++ " not found")), st, [])

/-- The tail of `close_session` after the optional agent close: `await
session.stop()`, then deletion of the session, controller and file-system
entries. -/
def closeRest (env : Env) (st : ServerState) (session_id : String)
    (eff : List Effect) :
    Except PyErr String × ServerState × List Effect :=
  if env.sessionStopFails session_id then
    (.error (wrap500 (.exc "browser session stop failed")), st,
     eff ++ [Effect.sessionStopFailed session_id])
  else
    let st₁ : ServerState :=
      { st with
        browser_sessions := dictErase st.browser_sessions session_id
        controllers := dictErase st.controllers session_id
        file_systems := dictErase st.file_systems session_id }
    (.ok ("Session " ++ session_id ++ " closed successfully"), st₁,
     eff ++ [Effect.sessionStop session_id])

/-- `DELETE /sessions/{session_id}` (`close_session`).  The 404 for an absent
session is raised inside the `try`, so it too is wrapped into a 500. -/
def close_session (env : Env) (st : ServerState) (session_id : String) :
    Except PyErr String × ServerState × List Effect :=
  if (dictLookup st.browser_sessions session_id).isNone then
    (.error (wrap500 (.http 404 ("Session " ++ session_id ++ " not found"))),
     st, [])
  else
    match dictLookup st.agents session_id with
    | some _ =>
      if env.agentCloseFails session_id then
        (.error (wrap500 (.exc "agent close failed")), st,
         [Effect.agentCloseFailed session_id])
      else
        closeRest env
          { st with agents := dictErase st.agents session_id } session_id
          [Effect.agentClose session_id]
    | none => closeRest env st session_id []

/-- An empty agent history at construction time.  Modelled from the spec:
the freshly constructed agent handle has an empty history (no steps, no
errors, no result yet - §3 `Task`, §6). -/
def initialHistory : AgentHistory :=
  { steps := 0, is_successful := none, total_duration := 0, urls := [],
    final_result := none, errors := [] }

/-- The `Agent(task=..., llm=..., browser_session=...)` constructed by
`run_agent_task`.  Modelled from the spec: the handle's liveness flag exists
and is not yet set at construction - the run is "scheduled ... as a
non-blocking unit of work that begins after the call returns" (§4.2), and the
task state machine starts at `created`, before `running` (§4.3). -/
def mkAgent (task : String) (model : String) : Agent :=
  { task := task, model := model, running := some false,
    state_history := some initialHistory }

/-- `history.errors()` gaining the error a raising run captured.  Modelled
from the spec: "the task remains queryable with its error captured in
history" (§4.2). -/
def appendError (h : AgentHistory) (msg : String) : AgentHistory :=
  { h with errors := h.errors ++ [msg] }

/-- Modelled from the spec: one `await agent.run(max_steps=...)` call on the
agent handle (external collaborator, §6), with its outcome drawn from the
environment.  Returns the exception message, if the run raised, together with
the agent object afterwards: in either case the run has finished, so the
liveness flag is cleared (§4.3: `running →(run completes or raises)→
completed`), and a raising run captures its error in the history. -/
def agent_run (env : Env) (task_id : String) (a : Agent) (max_steps : Nat) :
    Option String × Agent :=
  match env.runOutcome task_id max_steps with
  | .ok h => (none, { a with running := some false, state_history := some h })
  | .raises msg =>
      let h := appendError (a.state_history.getD initialHistory) msg
      (some msg, { a with running := some false, state_history := some h })

/-- The `run_agent` closure scheduled by `run_agent_task`: it runs the agent
and catches any exception (`except Exception as e: logger.error(...)`), so it
always returns a state and never propagates an error. -/
def run_agent (env : Env) (st : ServerState) (job : BackgroundJob) :
    ServerState :=
  match dictLookup st.agents job.task_id with
  | none => st
  | some a =>
      let r := agent_run env job.task_id a job.max_steps
      { st with agents := dictInsert st.agents job.task_id r.2 }

/-- `POST /agent/task` (`run_agent_task`).  Resolves the session (possibly
auto-creating `"default"`), checks `OPENAI_API_KEY`, constructs the agent,
registers it under a generated task id and schedules `run_agent` as a
background job; the whole body sits inside the 500-wrapping `try`. -/
def run_agent_task (env : Env) (st : ServerState) (request : AgentTaskRequest) :
    Except PyErr TaskResponse × ServerState × List Effect × List BackgroundJob :=
  match get_session env st request.session_id with
  | (.error e, st₁, eff) => (.error (wrap500 e), st₁, eff, [])
  | (.ok _, st₁, eff) =>
    if env.apiKey.getD "" = "" then
      (.error (wrap500 (.http 400 "OPENAI_API_KEY environment variable not set")),
       st₁, eff, [])
    else if env.agentConstructOk = false then
      (.error (wrap500 (.exc "agent initialization failed")), st₁, eff, [])
    else
      let task_id := "task_" ++ toString env.now
      let st₂ : ServerState :=
        { st₁ with agents :=
            dictInsert st₁.agents task_id (mkAgent request.task request.model) }
      (.ok { task_id := task_id, status := "started",
             message := "Agent task " ++ task_id ++ " started",
             session_id := request.session_id },
       st₂, eff, [{ task_id := task_id, max_steps := request.max_steps }])

/-- `GET /agent/task/{task_id}` (`get_agent_task_status`).  `is_running =
hasattr(agent, 'running') and getattr(agent, 'running', False)`; the history
block is added only when `agent.state.history` is reachable; `final_result`
only when truthy; `errors` only when non-empty. -/
def get_agent_task_status (st : ServerState) (task_id : String) :
    Except PyErr StatusResponse :=
  match dictLookup st.agents task_id with
  | none => .error (.http 404 ("Task " ++ task_id ++ " not found"))
  | some agent =>
    let is_running := agent.running.getD false
    let base : StatusResponse :=
      { task_id := task_id
        status := if is_running then "running" else "completed"
        steps_completed := none, is_successful := none, total_duration := none
        urls_visited := none, final_result := none, errors := none }
    match agent.state_history with
    | none => .ok base
    | some h =>
      .ok { base with
        steps_completed := some h.steps
        is_successful := some h.is_successful
        total_duration := some h.total_duration
        urls_visited := some (h.urls.filterMap id)
        final_result :=
          match h.final_result with
          | some r => if r = "" then none else some r
          | none => none
        errors := if h.errors = [] then none else some h.errors }

/-- The agent-closing loop of `ServerState.cleanup`: each `await
agent.close()` sits in its own `try/except`, so a failure is recorded and the
iteration continues. -/
def closeAgents (env : Env) : List (String × Agent) → List Effect
  | [] => []
  | (id, _) :: rest =>
      (if env.agentCloseFails id then Effect.agentCloseFailed id
       else Effect.agentClose id) :: closeAgents env rest

/-- The session-stopping loop of `ServerState.cleanup`, likewise with a
per-item `try/except`. -/
def stopSessions (env : Env) : List (String × BrowserSession) → List Effect
  | [] => []
  | (id, _) :: rest =>
      (if env.sessionStopFails id then Effect.sessionStopFailed id
       else Effect.sessionStop id) :: stopSessions env rest

/-- `ServerState.cleanup`: close every agent, then stop every browser
session.  Total - every exception is caught item by item, so cleanup itself
never raises; it returns the trace of attempted teardowns. -/
def cleanup (env : Env) (st : ServerState) : List Effect :=
  closeAgents env st.agents ++ stopSessions env st.browser_sessions

/-- The ids whose agent teardown was attempted (successfully or not) in a
trace. -/
def attemptedAgentIds (effs : List Effect) : List String :=
  effs.filterMap fun e =>
    match e with
    | .agentClose id => some id
    | .agentCloseFailed id => some id
    | _ => none

/-- The ids whose browser-session stop was attempted (successfully or not) in
a trace. -/
def attemptedSessionIds (effs : List Effect) : List String :=
  effs.filterMap fun e =>
    match e with
    | .sessionStop id => some id
    | .sessionStopFailed id => some id
    | _ => none

/-- Modelled from the spec: the task state machine of §4.3,
`created →(scheduled)→ running →(run completes or raises)→ completed`,
for the agent handle, whose code is not under `src/`. -/
inductive AgentPhase where
  | created
  | running
  | completed
deriving Repr, DecidableEq

/-- The order of the §4.3 state machine: a phase may only stay or move
forward; no transition leaves `completed`. -/
def phaseLe : AgentPhase → AgentPhase → Bool
  | .created, _ => true
  | .running, .created => false
  | .running, _ => true
  | .completed, .completed => true
  | .completed, _ => false

/-- A trajectory of phases observed over a task's lifetime is valid when each
step follows the §4.3 state machine. -/
def validTraj : List AgentPhase → Bool
  | [] => true
  | [_] => true
  | a :: b :: rest => phaseLe a b && validTraj (b :: rest)

/-- Modelled from the spec: the agent handle at each lifecycle phase.  The
liveness flag is set exactly while the run is executing (§4.2: "`state` is
`\x22running\x22` while the agent's liveness flag is set"); before the scheduled
run begins and after it finishes the flag is clear. -/
def agentAtPhase : AgentPhase → Agent
  | .created => mkAgent "demo task" "gpt-4o"
  | .running => { mkAgent "demo task" "gpt-4o" with running := some true }
  | .completed => { mkAgent "demo task" "gpt-4o" with running := some false }

/-- A server state holding one registered task `"t1"`. -/
def stateWithAgent (a : Agent) : ServerState :=
  { emptyState with agents := [("t1", a)] }

/-- The `status` field a poll of `GET /agent/task/t1` reports when the task's
agent is at the given lifecycle phase. -/
def observedStatus (p : AgentPhase) : Option String :=
  match get_agent_task_status (stateWithAgent (agentAtPhase p)) "t1" with
  | .ok r => some r.status
  | .error _ => none

/-- An environment in which every collaborator call succeeds: clock at 7 ms,
API key present, every teardown healthy, every run succeeding with an empty
history. -/
def envOk : Env :=
  { now := 7, apiKey := some "sk-test"
    sessionStartOk := true, controllerOk := true, fileSystemOk := true
    agentConstructOk := true
    agentCloseFails := fun _ => false
    sessionStopFails := fun _ => false
    runOutcome := fun _ _ => .ok initialHistory }

/-- A create request for the explicit id `"s1"`. -/
def reqS1 : CreateSessionRequest :=
  { session_id := some "s1" }

/-- An agent-task request against session `"s1"`. -/
def reqTaskS1 : AgentTaskRequest :=
  { task := "do something", session_id := "s1" }

/-- The state after one successful `create_session` of `"s1"` from the empty
state. -/
def stS1 : ServerState :=
  (create_session envOk emptyState reqS1).2.1

/-- An environment in which the storage sandbox (`FileSystem`) fails to
initialize while everything else succeeds. -/
def envFsFail : Env :=
  { envOk with fileSystemOk := false }

/-- The state after auto-provisioning the `"default"` session: exactly the
three registrations `create_session` performs. -/
def defaultProvisioned (st : ServerState) : ServerState :=
  { st with
    browser_sessions :=
      dictInsert st.browser_sessions "default" (sessionOf defaultRequest)
    controllers := dictInsert st.controllers "default" {}
    file_systems :=
      dictInsert st.file_systems "default" ⟨"~/.browser-use-api"⟩ }

/-- An environment identical to `envOk` but with no `OPENAI_API_KEY`. -/
def envNoKey : Env :=
  { envOk with apiKey := none }

/-- An agent-task request naming an unknown session. -/
def reqTaskGhost : AgentTaskRequest :=
  { task := "do something", session_id := "ghost" }

/-- The agent object after a raising run: liveness flag cleared, the error
appended to its history (see `agent_run`). -/
def agentAfterRaise (a : Agent) (msg : String) : Agent :=
  { a with running := some false
           state_history :=
             some (appendError (a.state_history.getD initialHistory) msg) }

/-- The `status` field of a task-status reply, `none` when the endpoint
raised instead. -/
def statusOf : Except PyErr StatusResponse → Option String
  | .ok r => some r.status
  | .error _ => none

/-- An environment whose agent runs raise. -/
def envRaise : Env :=
  { envOk with runOutcome := fun _ _ => .raises "action failed" }

/-! ## Theorems -/

@[simp] theorem dictLookup_nil {α : Type} (k : String) :
    dictLookup ([] : List (String × α)) k = none := rfl

@[simp] theorem dictLookup_cons {α : Type} (k₁ k : String) (v : α) (rest) :
    dictLookup ((k₁, v) :: rest) k =
      if k₁ = k then some v else dictLookup rest k := rfl

theorem dictLookup_insert_self {α : Type} (l : List (String × α)) (k : String)
    (v : α) : dictLookup (dictInsert l k v) k = some v := by
  induction l with
  | nil => simp [dictInsert]
  | cons p rest ih =>
      obtain ⟨k₁, v₁⟩ := p
      by_cases h : k₁ = k <;> simp [dictInsert, h, ih]

theorem dictLookup_insert_ne {α : Type} (l : List (String × α))
    (k k₂ : String) (v : α) (h : k₂ ≠ k) :
    dictLookup (dictInsert l k v) k₂ = dictLookup l k₂ := by
  induction l with
  | nil => simp [dictInsert, Ne.symm h]
  | cons p rest ih =>
      obtain ⟨k₁, v₁⟩ := p
      by_cases h₁ : k₁ = k
      · subst h₁; simp [dictInsert, Ne.symm h]
      · simp [dictInsert, h₁, ih]

theorem dictLookup_erase_self {α : Type} (l : List (String × α)) (k : String) :
    dictLookup (dictErase l k) k = none := by
  induction l with
  | nil => simp [dictErase]
  | cons p rest ih =>
      obtain ⟨k₁, v₁⟩ := p
      by_cases h : k₁ = k <;> simp [dictErase, h, ih]

theorem dictLookup_erase_ne {α : Type} (l : List (String × α))
    (k k₂ : String) (h : k₂ ≠ k) :
    dictLookup (dictErase l k) k₂ = dictLookup l k₂ := by
  induction l with
  | nil => simp [dictErase]
  | cons p rest ih =>
      obtain ⟨k₁, v₁⟩ := p
      by_cases h₁ : k₁ = k
      · subst h₁; simp [dictErase, Ne.symm h, ih]
      · simp [dictErase, h₁, ih]

theorem phaseLe_refl (p : AgentPhase) : phaseLe p p = true := by
  cases p <;> rfl

theorem phaseLe_trans (a b c : AgentPhase) (h₁ : phaseLe a b = true)
    (h₂ : phaseLe b c = true) : phaseLe a c = true := by
  cases a <;> cases b <;> cases c <;> simp_all [phaseLe]

theorem validTraj_tail (a : AgentPhase) (tr : List AgentPhase)
    (h : validTraj (a :: tr) = true) : validTraj tr = true := by
  cases tr with
  | nil => rfl
  | cons b rest =>
      have := h
      simp only [validTraj, Bool.and_eq_true] at this
      exact this.2

theorem validTraj_head_le (tr : List AgentPhase) :
    ∀ (a : AgentPhase), validTraj (a :: tr) = true →
      ∀ (j : Nat) (hj : j < tr.length), phaseLe a (tr.get ⟨j, hj⟩) = true := by
  induction tr with
  | nil => intro a _ j hj; exact absurd hj (by simp)
  | cons b rest ih =>
      intro a h j hj
      have hab : phaseLe a b = true := by
        simp only [validTraj, Bool.and_eq_true] at h
        exact h.1
      have htail : validTraj (b :: rest) = true := validTraj_tail a _ h
      cases j with
      | zero => exact hab
      | succ j₁ =>
          have hj₁ : j₁ < rest.length := Nat.lt_of_succ_lt_succ hj
          have hb := ih b htail j₁ hj₁
          exact phaseLe_trans a b _ hab hb

theorem validTraj_mono (tr : List AgentPhase) (h : validTraj tr = true) :
    ∀ (i j : Nat) (hi : i < tr.length) (hj : j < tr.length), i ≤ j →
      phaseLe (tr.get ⟨i, hi⟩) (tr.get ⟨j, hj⟩) = true := by
  induction tr with
  | nil => intro i j hi; exact absurd hi (by simp)
  | cons a rest ih =>
      intro i j hi hj hij
      cases i with
      | zero =>
          cases j with
          | zero => exact phaseLe_refl _
          | succ j₁ =>
              exact validTraj_head_le rest a h j₁ (Nat.lt_of_succ_lt_succ hj)
      | succ i₁ =>
          cases j with
          | zero => exact absurd hij (by simp)
          | succ j₁ =>
              exact ih (validTraj_tail a rest h) i₁ j₁
                (Nat.lt_of_succ_lt_succ hi) (Nat.lt_of_succ_lt_succ hj)
                (Nat.le_of_succ_le_succ hij)

theorem attemptedAgentIds_closeAgents (env : Env) (l : List (String × Agent)) :
    attemptedAgentIds (closeAgents env l) = dictKeys l := by
  induction l with
  | nil => rfl
  | cons p rest ih =>
      obtain ⟨id, a⟩ := p
      by_cases h : env.agentCloseFails id <;>
        simp_all [closeAgents, attemptedAgentIds, dictKeys]

theorem attemptedAgentIds_stopSessions (env : Env)
    (l : List (String × BrowserSession)) :
    attemptedAgentIds (stopSessions env l) = [] := by
  induction l with
  | nil => rfl
  | cons p rest ih =>
      obtain ⟨id, s⟩ := p
      by_cases h : env.sessionStopFails id <;>
        simp_all [stopSessions, attemptedAgentIds]

theorem attemptedSessionIds_closeAgents (env : Env) (l : List (String × Agent)) :
    attemptedSessionIds (closeAgents env l) = [] := by
  induction l with
  | nil => rfl
  | cons p rest ih =>
      obtain ⟨id, a⟩ := p
      by_cases h : env.agentCloseFails id <;>
        simp_all [closeAgents, attemptedSessionIds]

theorem attemptedSessionIds_stopSessions (env : Env)
    (l : List (String × BrowserSession)) :
    attemptedSessionIds (stopSessions env l) = dictKeys l := by
  induction l with
  | nil => rfl
  | cons p rest ih =>
      obtain ⟨id, s⟩ := p
      by_cases h : env.sessionStopFails id <;>
        simp_all [stopSessions, attemptedSessionIds, dictKeys]

/-- Claim C7: process shutdown (`ServerState.cleanup`) attempts the teardown
of every registered task's agent handle and every registered session's
automation handle, for every pattern of teardown failures (the environment's
failure oracles are universally quantified, so in particular an earlier
raising teardown never prevents a later attempt); `cleanup` is a total
function into a trace, so it never raises. -/
theorem cleanup_attempts_every_resource (env : Env) (st : ServerState) :
    attemptedAgentIds (cleanup env st) = dictKeys st.agents ∧
    attemptedSessionIds (cleanup env st) = dictKeys st.browser_sessions := by
  have h₁ : attemptedAgentIds (cleanup env st) =
      attemptedAgentIds (closeAgents env st.agents) ++
        attemptedAgentIds (stopSessions env st.browser_sessions) := by
    simp [cleanup, attemptedAgentIds, List.filterMap_append]
  have h₂ : attemptedSessionIds (cleanup env st) =
      attemptedSessionIds (closeAgents env st.agents) ++
        attemptedSessionIds (stopSessions env st.browser_sessions) := by
    simp [cleanup, attemptedSessionIds, List.filterMap_append]
  constructor
  · rw [h₁, attemptedAgentIds_closeAgents, attemptedAgentIds_stopSessions,
      List.append_nil]
  · rw [h₂, attemptedSessionIds_closeAgents, attemptedSessionIds_stopSessions,
      List.nil_append]

/-- Claim C10: a duplicate-id `create` is side-effect free - the duplicate
check precedes every allocation, so the failing call starts no automation
handle (empty effect trace) and returns the state unchanged in all four
registry maps. -/
theorem duplicate_create_side_effect_free (env : Env) (st : ServerState)
    (request : CreateSessionRequest) (id : String)
    (hid : request.session_id = some id) (hne : id ≠ "")
    (hdup : (dictLookup st.browser_sessions id).isSome = true) :
    create_session env st request =
      (.error (wrap500 (.http 400 ("Session " ++ id ++ " already exists"))),
       st, []) := by
  unfold create_session resolveSessionId
  simp [hid, hne, hdup]

/-- Witness for C10 at a concrete duplicate id. -/
theorem duplicate_create_side_effect_free_witness :
    create_session envOk stS1 reqS1 =
      (.error (wrap500 (.http 400 ("Session " ++ "s1" ++ " already exists"))),
       stS1, []) :=
  duplicate_create_side_effect_free envOk stS1 reqS1 "s1" rfl (by decide) rfl

/-- Claim C1 (evaluated at the failing input): after `create("s1")` succeeds,
`get("s1")` returns the registered bundle under id `"s1"`, but the second
`create("s1")` does not surface the duplicate-id error (`HTTPException` 400
`AlreadyExists`) to the caller: the endpoint's blanket `except Exception`
catches its own deliberate 400 raise and re-raises it as a 500 whose detail
merely quotes the original error - the call still fails synchronously and
leaves the state unchanged. -/
theorem create_then_get_then_duplicate_create :
    (create_session envOk emptyState reqS1).1 =
      .ok { session_id := "s1", status := "created",
            message := "Browser session s1 created successfully" } ∧
    dictLookup stS1.browser_sessions "s1" = some (sessionOf reqS1) ∧
    get_session envOk stS1 "s1" = (.ok (sessionOf reqS1), stS1, []) ∧
    create_session envOk stS1 reqS1 =
      (.error (.http 500 "400: Session s1 already exists"), stS1, []) :=
  ⟨rfl, rfl, rfl, rfl⟩

/-- Counterexample to C8: an omitted session id is generated as
`"session_" + milliseconds`, with no freshness check, so a `create` with an
omitted id can fail with the duplicate-id error: here a session named
`"session_7"` already exists and the clock reads 7 ms. -/
theorem omitted_id_create_collides :
    create_session envOk
      { emptyState with browser_sessions := [("session_7", sessionOf reqS1)] }
      { session_id := none } =
      (.error (.http 500 "400: Session session_7 already exists"),
       { emptyState with browser_sessions := [("session_7", sessionOf reqS1)] },
       []) :=
  rfl

/-- Claim C8 as amended: an omitted id is generated as
`"session_" + current-time-in-milliseconds`; the generated id is fresh only
when no session is registered under that name - in that case the create
succeeds under the generated id - and otherwise (two omitted-id calls in the
same millisecond, or an explicit session of the same name) the call fails
with the duplicate-id error. -/
theorem omitted_id_create_generated (env : Env) (st : ServerState)
    (request : CreateSessionRequest) (hid : request.session_id = none) :
    ((dictLookup st.browser_sessions ("session_" ++ toString env.now)).isSome =
        true →
      create_session env st request =
        (.error (wrap500 (.http 400 ("Session " ++
           ("session_" ++ toString env.now) ++ " already exists"))), st, [])) ∧
    (dictLookup st.browser_sessions ("session_" ++ toString env.now) = none →
      env.sessionStartOk = true → env.controllerOk = true →
      env.fileSystemOk = true →
      (create_session env st request).1 =
        .ok { session_id := "session_" ++ toString env.now,
              status := "created",
              message := "Browser session " ++
                ("session_" ++ toString env.now) ++
                " created successfully" }) := by
  constructor
  · intro hdup
    unfold create_session resolveSessionId
    simp [hid, hdup]
  · intro hfresh hstart hctrl hfs
    unfold create_session resolveSessionId
    simp [hid, hfresh, hstart, hctrl, hfs]

/-- Witness for the amended C8 at a concrete fresh generated id. -/
theorem omitted_id_create_generated_witness :
    (create_session envOk emptyState { session_id := none }).1 =
      .ok { session_id := "session_" ++ toString envOk.now,
            status := "created",
            message := "Browser session " ++
              ("session_" ++ toString envOk.now) ++
              " created successfully" } :=
  (omitted_id_create_generated envOk emptyState { session_id := none }
    rfl).2 rfl rfl rfl rfl

/-- Counterexample to C3: when the storage sandbox (`FileSystem`)
initialization fails, `create("s1")` fails - yet the browser-session and
controller entries registered before the failure survive in the registry
maps, so a partial bundle remains. -/
theorem create_partial_bundle_survives :
    (create_session envFsFail emptyState reqS1).1 =
      .error (.http 500 "file system initialization failed") ∧
    dictLookup (create_session envFsFail emptyState reqS1).2.1.browser_sessions
      "s1" = some (sessionOf reqS1) ∧
    dictLookup (create_session envFsFail emptyState reqS1).2.1.controllers
      "s1" = some {} :=
  ⟨rfl, rfl, rfl⟩

/-- Claim C3 as amended: `create` allocates the automation handle, the action
dispatcher and the storage sandbox sequentially with no rollback, so
registration is atomic only with respect to the automation handle: a
construction/start failure of the browser session registers nothing, but a
dispatcher (`Controller`) failure leaves the session entry registered, and a
sandbox (`FileSystem`) failure leaves both the session and the controller
entries registered, while the call itself fails. -/
theorem create_failure_registration (env : Env) (st : ServerState)
    (request : CreateSessionRequest) (id : String)
    (hid : request.session_id = some id) (hne : id ≠ "")
    (hfresh : dictLookup st.browser_sessions id = none) :
    (env.sessionStartOk = false →
      create_session env st request =
        (.error (wrap500 (.exc "browser session start failed")), st, [])) ∧
    (env.sessionStartOk = true → env.controllerOk = false →
      create_session env st request =
        (.error (wrap500 (.exc "controller initialization failed")),
         { st with browser_sessions :=
             dictInsert st.browser_sessions id (sessionOf request) },
         [Effect.sessionStart id])) ∧
    (env.sessionStartOk = true → env.controllerOk = true →
      env.fileSystemOk = false →
      create_session env st request =
        (.error (wrap500 (.exc "file system initialization failed")),
         { st with
           browser_sessions :=
             dictInsert st.browser_sessions id (sessionOf request)
           controllers := dictInsert st.controllers id {} },
         [Effect.sessionStart id])) := by
  refine ⟨?_, ?_, ?_⟩
  · intro hstart
    unfold create_session resolveSessionId
    simp [hid, hne, hfresh, hstart]
  · intro hstart hctrl
    unfold create_session resolveSessionId
    simp [hid, hne, hfresh, hstart, hctrl]
  · intro hstart hctrl hfs
    unfold create_session resolveSessionId
    simp [hid, hne, hfresh, hstart, hctrl, hfs]

/-- Witness for the amended C3: concrete sandbox failure leaving the session
and controller entries behind. -/
theorem create_failure_registration_witness :
    create_session envFsFail emptyState reqS1 =
      (.error (wrap500 (.exc "file system initialization failed")),
       { emptyState with
         browser_sessions :=
           dictInsert emptyState.browser_sessions "s1" (sessionOf reqS1)
         controllers := dictInsert emptyState.controllers "s1" {} },
       [Effect.sessionStart "s1"]) :=
  (create_failure_registration envFsFail emptyState reqS1 "s1" rfl (by decide)
    rfl).2.2 rfl rfl rfl

theorem create_default_eq (env : Env) (st : ServerState)
    (hstart : env.sessionStartOk = true) (hctrl : env.controllerOk = true)
    (hfs : env.fileSystemOk = true)
    (hnone : dictLookup st.browser_sessions "default" = none) :
    create_session env st defaultRequest =
      (.ok { session_id := "default", status := "created",
             message := "Browser session default created successfully" },
       defaultProvisioned st, [Effect.sessionStart "default"]) := by
  have hsid : defaultRequest.session_id = some "default" := rfl
  unfold create_session resolveSessionId
  simp [hsid, hnone, hstart, hctrl, hfs, defaultProvisioned]

theorem get_default_lazy (env : Env) (st : ServerState)
    (hstart : env.sessionStartOk = true) (hctrl : env.controllerOk = true)
    (hfs : env.fileSystemOk = true)
    (hnone : dictLookup st.browser_sessions "default" = none) :
    get_session env st "default" =
      (.ok (sessionOf defaultRequest), defaultProvisioned st,
       [Effect.sessionStart "default"]) := by
  unfold get_session
  rw [hnone]
  rw [create_default_eq env st hstart hctrl hfs hnone]
  simp [defaultProvisioned, dictLookup_insert_self]

/-- Claim C2: with no bundle registered under `"default"`, `get("default")`
succeeds by lazily creating the default bundle; a repeated `get("default")`
before any `close("default")` returns the same bundle without creating
anything (state unchanged, no collaborator effects); after a
`close("default")` the next `get("default")` re-creates it; and `get(x)` for
any other absent id fails with the (unwrapped) 404 `NotFound`. -/
theorem default_session_auto_provisioning (env : Env) (st : ServerState)
    (hstart : env.sessionStartOk = true) (hctrl : env.controllerOk = true)
    (hfs : env.fileSystemOk = true)
    (hnone : dictLookup st.browser_sessions "default" = none)
    (hac : env.agentCloseFails "default" = false)
    (hstop : env.sessionStopFails "default" = false) :
    get_session env st "default" =
      (.ok (sessionOf defaultRequest), defaultProvisioned st,
       [Effect.sessionStart "default"]) ∧
    get_session env (defaultProvisioned st) "default" =
      (.ok (sessionOf defaultRequest), defaultProvisioned st, []) ∧
    ((close_session env (defaultProvisioned st) "default").1 =
        .ok "Session default closed successfully" ∧
      (get_session env
          (close_session env (defaultProvisioned st) "default").2.1
          "default").1 = .ok (sessionOf defaultRequest) ∧
      (get_session env
          (close_session env (defaultProvisioned st) "default").2.1
          "default").2.2 = [Effect.sessionStart "default"]) ∧
    (∀ x, x ≠ "default" → dictLookup st.browser_sessions x = none →
      get_session env st x =
        (.error (.http 404 ("Session " ++ x ++ " not found")), st, [])) := by
  have hlookup : dictLookup (defaultProvisioned st).browser_sessions "default" =
      some (sessionOf defaultRequest) := by
    simp [defaultProvisioned, dictLookup_insert_self]
  refine ⟨get_default_lazy env st hstart hctrl hfs hnone, ?_, ?_, ?_⟩
  · unfold get_session
    rw [hlookup]
  · have hclosed :
        (close_session env (defaultProvisioned st) "default").1 =
          .ok "Session default closed successfully" ∧
        dictLookup
          (close_session env (defaultProvisioned st) "default").2.1.browser_sessions
          "default" = none := by
      unfold close_session
      rw [hlookup]
      cases hag : dictLookup (defaultProvisioned st).agents "default" with
      | none =>
          unfold closeRest
          rw [hstop]
          simp [dictLookup_erase_self]
      | some a =>
          rw [hac]
          unfold closeRest
          rw [hstop]
          simp [dictLookup_erase_self]
    obtain ⟨hok, hnone₂⟩ := hclosed
    have hre := get_default_lazy env _ hstart hctrl hfs hnone₂
    exact ⟨hok, by rw [hre], by rw [hre]⟩
  · intro x hx hnx
    unfold get_session
    rw [hnx]
    simp [hx]

/-- Witness for C2 at the empty state: the first reference provisions
`"default"`, and a `get` of an absent non-default id is a 404. -/
theorem default_session_auto_provisioning_witness :
    get_session envOk emptyState "default" =
      (.ok (sessionOf defaultRequest), defaultProvisioned emptyState,
       [Effect.sessionStart "default"]) ∧
    get_session envOk emptyState "ghost" =
      (.error (.http 404 ("Session " ++ "ghost" ++ " not found")),
       emptyState, []) :=
  ⟨(default_session_auto_provisioning envOk emptyState rfl rfl rfl rfl rfl
      rfl).1,
   (default_session_auto_provisioning envOk emptyState rfl rfl rfl rfl rfl
      rfl).2.2.2 "ghost" (by decide) rfl⟩

/-- Claim C4 (evaluated at the failing inputs): `launch` does return the
generated task id without running the agent - the run is handed back as a
pending background job and the registered agent's liveness flag is still
unset when the call returns - and with a missing API key or an unknown
non-default session it fails synchronously with nothing scheduled; but the
failures do not surface as `PreconditionFailed` (400) or `NotFound` (404):
the blanket `except Exception` re-raises both as 500s quoting the original
error. -/
theorem launch_nonblocking_and_failures :
    run_agent_task envNoKey stS1 reqTaskS1 =
      (.error (.http 500 "400: OPENAI_API_KEY environment variable not set"),
       stS1, [], []) ∧
    run_agent_task envOk emptyState reqTaskGhost =
      (.error (.http 500 "404: Session ghost not found"), emptyState, [], []) ∧
    run_agent_task envOk stS1 reqTaskS1 =
      (.ok { task_id := "task_7", status := "started",
             message := "Agent task task_7 started", session_id := "s1" },
       { stS1 with agents := [("task_7", mkAgent "do something" "gpt-4o")] },
       [], [{ task_id := "task_7", max_steps := 100 }]) ∧
    (mkAgent "do something" "gpt-4o").running = some false :=
  ⟨rfl, rfl, rfl, rfl⟩

/-- Claim C9: when the automation handle's `stop()` raises during `close(x)`,
the call returns an error, the browser-session entry for `x` survives (a
subsequent `get(x)` still succeeds), and yet the agent entry under key `x`
was already closed and removed before the failure. -/
theorem close_failure_keeps_session (env : Env) (st : ServerState)
    (x : String) (s : BrowserSession) (a : Agent)
    (hs : dictLookup st.browser_sessions x = some s)
    (ha : dictLookup st.agents x = some a)
    (hac : env.agentCloseFails x = false)
    (hstop : env.sessionStopFails x = true) :
    close_session env st x =
      (.error (wrap500 (.exc "browser session stop failed")),
       { st with agents := dictErase st.agents x },
       [Effect.agentClose x, Effect.sessionStopFailed x]) ∧
    dictLookup
      ({ st with agents := dictErase st.agents x } : ServerState).browser_sessions
      x = some s ∧
    (get_session env { st with agents := dictErase st.agents x } x).1 =
      .ok s ∧
    dictLookup (dictErase st.agents x) x = none := by
  refine ⟨?_, hs, ?_, dictLookup_erase_self st.agents x⟩
  · unfold close_session
    rw [hs, ha, hac]
    unfold closeRest
    rw [hstop]
    simp
  · unfold get_session
    rw [show dictLookup
        ({ st with agents := dictErase st.agents x } : ServerState).browser_sessions
        x = some s from hs]

/-- Witness for C9: a concrete state with session and agent both under
`"s1"`, whose browser stop raises. -/
theorem close_failure_keeps_session_witness :
    close_session
      { envOk with sessionStopFails := fun i => i == "s1" }
      { emptyState with
        browser_sessions := [("s1", sessionOf reqS1)]
        agents := [("s1", mkAgent "do something" "gpt-4o")] }
      "s1" =
      (.error (wrap500 (.exc "browser session stop failed")),
       { ({ emptyState with
            browser_sessions := [("s1", sessionOf reqS1)]
            agents := [("s1", mkAgent "do something" "gpt-4o")] } : ServerState)
         with agents := dictErase [("s1", mkAgent "do something" "gpt-4o")] "s1" },
       [Effect.agentClose "s1", Effect.sessionStopFailed "s1"]) :=
  (close_failure_keeps_session
    { envOk with sessionStopFails := fun i => i == "s1" }
    { emptyState with
      browser_sessions := [("s1", sessionOf reqS1)]
      agents := [("s1", mkAgent "do something" "gpt-4o")] }
    "s1" (sessionOf reqS1) (mkAgent "do something" "gpt-4o")
    rfl rfl rfl rfl).1

/-- Claim C6: a background run that raises is caught by `run_agent` (which
returns a state instead of propagating the exception), the task stays
registered with its liveness flag cleared and the error captured in its
history, and `status(taskId)` then returns (rather than raises) a reply with
state `"completed"` and a non-empty `errors` list. -/
theorem failed_run_caught_and_reported (env : Env) (st : ServerState)
    (job : BackgroundJob) (a : Agent) (msg : String)
    (hreg : dictLookup st.agents job.task_id = some a)
    (hout : env.runOutcome job.task_id job.max_steps = .raises msg) :
    (agent_run env job.task_id a job.max_steps).1 = some msg ∧
    dictLookup (run_agent env st job).agents job.task_id =
      some (agentAfterRaise a msg) ∧
    (∃ r, get_agent_task_status (run_agent env st job) job.task_id = .ok r ∧
      r.status = "completed" ∧
      r.errors =
        some ((a.state_history.getD initialHistory).errors ++ [msg]) ∧
      (a.state_history.getD initialHistory).errors ++ [msg] ≠ []) := by
  have hrun : agent_run env job.task_id a job.max_steps =
      (some msg, agentAfterRaise a msg) := by
    unfold agent_run agentAfterRaise
    rw [hout]
  have hupd : dictLookup (run_agent env st job).agents job.task_id =
      some (agentAfterRaise a msg) := by
    unfold run_agent
    rw [hreg]
    simp only [hrun]
    exact dictLookup_insert_self st.agents job.task_id _
  refine ⟨by rw [hrun], hupd, ?_⟩
  unfold get_agent_task_status
  rw [hupd]
  simp [agentAfterRaise, appendError]

/-- Witness for C6: a concrete raising run against a registered task. -/
theorem failed_run_caught_and_reported_witness :
    (agent_run envRaise "t1" (mkAgent "demo task" "gpt-4o") 5).1 =
      some "action failed" ∧
    dictLookup
      (run_agent envRaise (stateWithAgent (mkAgent "demo task" "gpt-4o"))
        { task_id := "t1", max_steps := 5 }).agents "t1" =
      some (agentAfterRaise (mkAgent "demo task" "gpt-4o") "action failed") :=
  ⟨(failed_run_caught_and_reported envRaise
      (stateWithAgent (mkAgent "demo task" "gpt-4o"))
      { task_id := "t1", max_steps := 5 }
      (mkAgent "demo task" "gpt-4o") "action failed" rfl rfl).1,
   (failed_run_caught_and_reported envRaise
      (stateWithAgent (mkAgent "demo task" "gpt-4o"))
      { task_id := "t1", max_steps := 5 }
      (mkAgent "demo task" "gpt-4o") "action failed" rfl rfl).2.1⟩

/-- Counterexample to C5: a task is registered and queryable as soon as
`launch` stores the agent, but the scheduled run only begins after the call
returns, so a poll in the `created` window already reports `"completed"`; a
valid trajectory of the §4.3 state machine therefore shows the observation
`"completed"` followed by `"running"`. -/
theorem status_reverts_before_run_starts :
    validTraj [AgentPhase.created, AgentPhase.running] = true ∧
    [AgentPhase.created, AgentPhase.running].map observedStatus =
      [some "completed", some "running"] :=
  ⟨rfl, rfl⟩

/-- Claim C5 as amended: `status` reports `"running"` exactly while the
agent's liveness flag is set; over any valid trajectory of the task state
machine, once a poll taken at or after the start of the run reports
`"completed"`, every later poll reports `"completed"` (no revert after the
run has begun, hence at most one `"running"` → `"completed"` transition);
only the pre-run `created` window already reports `"completed"`. -/
theorem status_monotone_after_start :
    (∀ (st : ServerState) (tid : String) (a : Agent),
      dictLookup st.agents tid = some a →
      statusOf (get_agent_task_status st tid) =
        some (if a.running.getD false then "running" else "completed")) ∧
    (∀ p : AgentPhase,
      observedStatus p =
        some (if p = AgentPhase.running then "running" else "completed")) ∧
    (∀ tr : List AgentPhase, validTraj tr = true →
      ∀ (i j : Nat) (hi : i < tr.length) (hj : j < tr.length), i ≤ j →
        tr.get ⟨i, hi⟩ ≠ AgentPhase.created →
        observedStatus (tr.get ⟨i, hi⟩) = some "completed" →
        observedStatus (tr.get ⟨j, hj⟩) = some "completed") := by
  refine ⟨?_, ?_, ?_⟩
  · intro st tid a h
    unfold get_agent_task_status
    rw [h]
    cases hsh : a.state_history <;> simp [statusOf, hsh]
  · intro p
    cases p <;> rfl
  · intro tr hv i j hi hj hij hnc hobs
    have hmono := validTraj_mono tr hv i j hi hj hij
    cases hp : tr.get ⟨i, hi⟩ with
    | created => exact absurd hp hnc
    | running =>
        rw [hp] at hobs
        exact absurd hobs (by decide)
    | completed =>
        rw [hp] at hmono
        cases hq : tr.get ⟨j, hj⟩ with
        | created => rw [hq] at hmono; exact absurd hmono (by decide)
        | running => rw [hq] at hmono; exact absurd hmono (by decide)
        | completed => rfl

/-- Witness for the amended C5 on a concrete post-start trajectory. -/
theorem status_monotone_after_start_witness :
    observedStatus
      ([AgentPhase.running, AgentPhase.completed].get ⟨1, by decide⟩) =
      some "completed" :=
  status_monotone_after_start.2.2 [AgentPhase.running, AgentPhase.completed]
    rfl 1 1 (by decide) (by decide) (Nat.le_refl 1) (by decide) rfl
